import Mathlib

/-!
Verification of the machine inventory controller (`controllers/machine.go`)
of the casvisor repository: the default-machine classifier, the read handlers
`GetMachines` / `GetMachine` with their sync-gating and masking orchestration,
and the mutation gateway `AddMachine` / `UpdateMachine` / `DeleteMachine`.

The controller file is embedded faithfully.  The collaborating `object` and
`util` packages (store access, cloud sync, masking, integer parsing, id
splitting) are not part of the fragment; they are modelled from the spec as
abstract environment operations or, where the spec pins their behaviour down,
as concrete definitions marked `Modelled from the spec`.
-/

/-- The Machine record (§3 of the spec): identity, descriptive, and network
string fields used by the controller fragment. -/
structure Machine where
  owner : String
  name : String
  displayName : String
  provider : String
  state : String
  tag : String
  expireTime : String
  publicIp : String
  privateIp : String
deriving DecidableEq, Repr

/-- Model of Go `strings.HasPrefix`: byte/char-level prefix test. -/
def hasPrefixS (s pre : String) : Bool :=
  pre.data.isPrefixOf s.data

/-- Embedding of `isDefaultMachine` (controllers/machine.go, lines 134-148),
with the source's nested-if structure kept. -/
def isDefaultMachine (machine : Machine) : Bool :=
  if machine.publicIp == "" && machine.privateIp == "" then
    if hasPrefixS machine.name "machine_" && hasPrefixS machine.displayName "New Machine - " then
      machine.provider == "provider_1" && machine.state == "Active" &&
        machine.tag == "" && machine.expireTime == ""
    else false
  else false

/-- Modelled from the spec: `object.Machine.IsDefault`, the Default Classifier
of §3/§4.1, is not under src/; it is the six-condition rule (empty IPs, the
two placeholder prefixes, placeholder provider, Active state, empty tag and
expireTime), the same rule the in-fragment `isDefaultMachine` implements. -/
def Machine.IsDefault (m : Machine) : Bool :=
  m.publicIp == "" && m.privateIp == "" &&
  hasPrefixS m.name "machine_" && hasPrefixS m.displayName "New Machine - " &&
  m.provider == "provider_1" && m.state == "Active" &&
  m.tag == "" && m.expireTime == ""

/-- The in-fragment classifier and the spec-modelled classifier agree. -/
theorem isDefaultMachine_eq_IsDefault (m : Machine) :
    isDefaultMachine m = m.IsDefault := by
  unfold isDefaultMachine Machine.IsDefault
  cases h1 : (m.publicIp == "") <;>
    cases h2 : (m.privateIp == "") <;>
      cases h3 : hasPrefixS m.name "machine_" <;>
        cases h4 : hasPrefixS m.displayName "New Machine - " <;>
          simp [h1, h2, h3, h4, Bool.and_assoc]

/-- The conjunction of the eight default-machine conditions, as Props. -/
def DefaultConditions (m : Machine) : Prop :=
  m.publicIp = "" ∧ m.privateIp = "" ∧
  hasPrefixS m.name "machine_" = true ∧ hasPrefixS m.displayName "New Machine - " = true ∧
  m.provider = "provider_1" ∧ m.state = "Active" ∧
  m.tag = "" ∧ m.expireTime = ""

/-- Claim C1: `isDefaultMachine` returns true iff all of the conditions hold
simultaneously (PublicIp empty, PrivateIp empty, Name starts with "machine_",
DisplayName starts with "New Machine - ", Provider = "provider_1",
State = "Active", Tag empty, ExpireTime empty); whenever any one of them
fails, the result is false. -/
theorem isDefaultMachine_spec (m : Machine) :
    (isDefaultMachine m = true ↔ DefaultConditions m) ∧
    (¬ DefaultConditions m → isDefaultMachine m = false) := by
  constructor
  · unfold isDefaultMachine DefaultConditions
    cases h1 : (m.publicIp == "") <;>
      cases h2 : (m.privateIp == "") <;>
        cases h3 : hasPrefixS m.name "machine_" <;>
          cases h4 : hasPrefixS m.displayName "New Machine - " <;>
            simp_all [and_assoc]
  · intro hn
    cases h : isDefaultMachine m with
    | false => rfl
    | true =>
      exact absurd (by
        unfold isDefaultMachine DefaultConditions at *
        cases h1 : (m.publicIp == "") <;>
          cases h2 : (m.privateIp == "") <;>
            cases h3 : hasPrefixS m.name "machine_" <;>
              cases h4 : hasPrefixS m.displayName "New Machine - " <;>
                simp_all [and_assoc]) hn

/-- The canonical default machine used as a concrete instance. -/
def mDef : Machine :=
  { owner := "alice", name := "machine_1", displayName := "New Machine - x"
    provider := "provider_1", state := "Active", tag := "", expireTime := ""
    publicIp := "", privateIp := "" }

/-- A non-default (real) machine: it has a public IP. -/
def mReal : Machine :=
  { owner := "alice", name := "web1", displayName := "Web Server"
    provider := "provider_1", state := "Active", tag := "", expireTime := ""
    publicIp := "1.2.3.4", privateIp := "" }

/-- Witness for C1 at concrete machines: the canonical default machine is
classified default and the machine with a public IP is not. -/
theorem isDefaultMachine_spec_witness :
    isDefaultMachine mDef = true ∧ isDefaultMachine mReal = false :=
  ⟨(isDefaultMachine_spec mDef).1.mpr (by refine ⟨rfl, rfl, ?_, ?_, rfl, rfl, rfl, rfl⟩ <;> decide),
   (isDefaultMachine_spec mReal).2 (by intro h; exact absurd h.1 (by decide))⟩

/-- Observable events of a request run: store reads, classifier calls, cloud
sync invocations, masking applications, and store writes. -/
inductive Event where
  | fetchAll (owner : String)
  | fetchOne (id : String)
  | countReq (owner field value : String)
  | fetchPage (owner : String) (offset limit : Int) (field value sortField sortOrder : String)
  | classify
  | sync (owner : String)
  | maskOne
  | maskMany
  | storeAdd (m : Machine)
  | storeUpdate (id : String) (m : Machine)
  | storeDelete (m : Machine)
deriving DecidableEq, Repr

/-- The response envelope (§6): success with a machine list, success with a
list plus a total, success with one machine, a mutation envelope, or an
error message. -/
inductive Response where
  | ok (data : List Machine)
  | okPaged (data : List Machine) (total : Nat)
  | okOne (m : Machine)
  | okAffected (affected : Bool)
  | err (msg : String)
deriving DecidableEq, Repr

/-- Modelled from the spec (§6): the read capabilities of the store, as
abstract fallible operations (`object.GetMachines`, `object.GetMachineCount`,
`object.GetPaginationMachines`, `object.GetMachine` are not under src/). -/
structure StoreOps where
  getMachines : String → Except String (List Machine)
  getMachineCount : String → String → String → Except String Nat
  getPaginationMachines : String → Int → Int → String → String → String → String → Except String (List Machine)
  getMachine : String → Except String Machine

/-- Modelled from the spec (§5, §6): the environment a read request runs in.
`store0` is the store state before any sync; `store1` is the store state
after a successful cloud sync (reads go to `store1` only once
`syncMachinesCloud` has been invoked and succeeded); `getMaskedMachine` /
`getMaskedMachines` are the Disclosure Filter (§4.3), an external contract. -/
structure Env where
  store0 : StoreOps
  store1 : StoreOps
  syncMachinesCloud : String → Except String Nat
  getMaskedMachine : Machine → Except String Machine
  getMaskedMachines : List Machine → Except String (List Machine)

/-- Decimal value of a digit string. -/
def natOfDigits (l : List Char) : Nat :=
  l.foldl (fun acc c => acc * 10 + (c.toNat - 48)) 0

/-- A non-empty all-digit character list. -/
def allDigits (l : List Char) : Bool :=
  !l.isEmpty && l.all (fun c => c.isDigit)

/-- Modelled from the spec (§4.4): `util.ParseInt` is not under src/; the
spec requires pagination integers to be parsed as integers (optional sign,
decimal digits), failing with a parse error on non-numeric input rather than
silently defaulting. -/
def parseIntS (s : String) : Except String Int :=
  match s.data with
  | '-' :: rest =>
    if allDigits rest then Except.ok (-(Int.ofNat (natOfDigits rest)))
    else Except.error ("ParseInt error: " ++ s)
  | '+' :: rest =>
    if allDigits rest then Except.ok (Int.ofNat (natOfDigits rest))
    else Except.error ("ParseInt error: " ++ s)
  | l =>
    if allDigits l then Except.ok (Int.ofNat (natOfDigits l))
    else Except.error ("ParseInt error: " ++ s)

/-- Modelled from the spec (§4.4): `util.GetOwnerAndNameFromId` is not under
src/; the composite id is rendered "owner/name", so the owner is the part
before the first slash. -/
def ownerOfId (id : String) : String :=
  ⟨id.data.takeWhile (fun c => !(c == '/'))⟩

/-- The classification loop of GetMachines (lines 49-55): scan for a
non-default machine, breaking at the first hit; also records one classifier
event per machine inspected. -/
def findNonDefault : List Machine → Bool × List Event
  | [] => (false, [])
  | m :: rest =>
    if !m.IsDefault then (true, [Event.classify])
    else
      let r := findNonDefault rest
      (r.1, Event.classify :: r.2)

/-- The tail of GetMachines after the sync gate (lines 65-89), reading from
the store state `store` current at that point. -/
def getMachinesRest (env : Env) (store : StoreOps)
    (owner limitS pageS field value sortField sortOrder : String) :
    Response × List Event :=
  if limitS == "" || pageS == "" then
    match store.getMachines owner with
    | .error e => (.err e, [Event.fetchAll owner])
    | .ok ms =>
      match env.getMaskedMachines ms with
      | .error e => (.err e, [Event.fetchAll owner, Event.maskMany])
      | .ok mms => (.ok mms, [Event.fetchAll owner, Event.maskMany])
  else
    match parseIntS limitS with
    | .error e => (.err e, [])
    | .ok limit =>
      match store.getMachineCount owner field value with
      | .error e => (.err e, [Event.countReq owner field value])
      | .ok count =>
        match parseIntS pageS with
        | .error e => (.err e, [Event.countReq owner field value])
        | .ok page =>
          match store.getPaginationMachines owner ((page - 1) * limit) limit field value sortField sortOrder with
          | .error e =>
            (.err e, [Event.countReq owner field value,
                      Event.fetchPage owner ((page - 1) * limit) limit field value sortField sortOrder])
          | .ok ms =>
            match env.getMaskedMachines ms with
            | .error e =>
              (.err e, [Event.countReq owner field value,
                        Event.fetchPage owner ((page - 1) * limit) limit field value sortField sortOrder,
                        Event.maskMany])
            | .ok mms =>
              (.okPaged mms count,
               [Event.countReq owner field value,
                Event.fetchPage owner ((page - 1) * limit) limit field value sortField sortOrder,
                Event.maskMany])

/-- Embedding of the handler `GetMachines` (controllers/machine.go,
lines 34-90): fetch the owner scope, scan for a non-default machine, sync the
scope iff one exists (aborting on sync error), then serve the unpaginated or
paginated read from the resulting store state. -/
def GetMachines (env : Env) (owner limitS pageS field value sortField sortOrder : String) :
    Response × List Event :=
  match env.store0.getMachines owner with
  | .error e => (.err e, [Event.fetchAll owner])
  | .ok machines =>
    if (findNonDefault machines).1 then
      match env.syncMachinesCloud owner with
      | .error e =>
        (.err e, (Event.fetchAll owner :: (findNonDefault machines).2) ++ [Event.sync owner])
      | .ok _ =>
        ((getMachinesRest env env.store1 owner limitS pageS field value sortField sortOrder).1,
         (Event.fetchAll owner :: (findNonDefault machines).2) ++ [Event.sync owner] ++
           (getMachinesRest env env.store1 owner limitS pageS field value sortField sortOrder).2)
    else
      ((getMachinesRest env env.store0 owner limitS pageS field value sortField sortOrder).1,
       (Event.fetchAll owner :: (findNonDefault machines).2) ++
         (getMachinesRest env env.store0 owner limitS pageS field value sortField sortOrder).2)

/-- Embedding of the handler `GetMachine` (controllers/machine.go,
lines 99-132): fetch the record; a default record is masked and returned with
no sync; a non-default record forces one sync of its owner scope, then a
re-fetch, mask, and return.  Any error aborts with that error. -/
def GetMachine (env : Env) (id : String) : Response × List Event :=
  match env.store0.getMachine id with
  | .error e => (.err e, [Event.fetchOne id])
  | .ok machine =>
    if machine.IsDefault then
      match env.getMaskedMachine machine with
      | .error e => (.err e, [Event.fetchOne id, Event.classify, Event.maskOne])
      | .ok mm => (.okOne mm, [Event.fetchOne id, Event.classify, Event.maskOne])
    else
      match env.syncMachinesCloud (ownerOfId id) with
      | .error e => (.err e, [Event.fetchOne id, Event.classify, Event.sync (ownerOfId id)])
      | .ok _ =>
        match env.store1.getMachine id with
        | .error e =>
          (.err e, [Event.fetchOne id, Event.classify, Event.sync (ownerOfId id), Event.fetchOne id])
        | .ok m2 =>
          match env.getMaskedMachine m2 with
          | .error e =>
            (.err e, [Event.fetchOne id, Event.classify, Event.sync (ownerOfId id),
                      Event.fetchOne id, Event.maskOne])
          | .ok mm =>
            (.okOne mm, [Event.fetchOne id, Event.classify, Event.sync (ownerOfId id),
                         Event.fetchOne id, Event.maskOne])

/-- Modelled from the spec (§6): the write capabilities of the store
(`object.AddMachine`, `object.UpdateMachine`, `object.DeleteMachine` are not
under src/), each returning an affected flag or an error. -/
structure WriteStore where
  addMachine : Machine → Except String Bool
  updateMachine : String → Machine → Except String Bool
  deleteMachine : Machine → Except String Bool

/-- Modelled from the spec (§4.5, §6): `wrapActionResponse` (not under src/)
wraps the store's (affected, err) pair into the uniform envelope. -/
def wrapActionResponse (r : Except String Bool) : Response :=
  match r with
  | .error e => .err e
  | .ok b => .okAffected b

/-- Embedding of the handler `AddMachine` (lines 179-189).  The JSON decode
of the request body is an external collaborator; its outcome is the
`body` argument. -/
def AddMachine (ws : WriteStore) (body : Except String Machine) : Response × List Event :=
  match body with
  | .error e => (.err e, [])
  | .ok m => (wrapActionResponse (ws.addMachine m), [Event.storeAdd m])

/-- Embedding of the handler `UpdateMachine` (lines 158-170). -/
def UpdateMachine (ws : WriteStore) (id : String) (body : Except String Machine) :
    Response × List Event :=
  match body with
  | .error e => (.err e, [])
  | .ok m => (wrapActionResponse (ws.updateMachine id m), [Event.storeUpdate id m])

/-- Embedding of the handler `DeleteMachine` (lines 198-208). -/
def DeleteMachine (ws : WriteStore) (body : Except String Machine) : Response × List Event :=
  match body with
  | .error e => (.err e, [])
  | .ok m => (wrapActionResponse (ws.deleteMachine m), [Event.storeDelete m])

/-- Owner filter (§4.4): an empty owner means all owners. -/
def matchesOwner (owner : String) (m : Machine) : Bool :=
  owner == "" || m.owner == owner

/-- Field access by name, for the single-field equality filter and sorting. -/
def machineField (m : Machine) : String → String
  | "owner" => m.owner
  | "name" => m.name
  | "displayName" => m.displayName
  | "provider" => m.provider
  | "state" => m.state
  | "tag" => m.tag
  | "expireTime" => m.expireTime
  | "publicIp" => m.publicIp
  | "privateIp" => m.privateIp
  | _ => ""

/-- Modelled from the spec (§4.4): the optional single-field equality
filter; an empty field or value disables it. -/
def matchesFilter (field value : String) (m : Machine) : Bool :=
  field == "" || value == "" || machineField m field == value

/-- Insertion into a list sorted by `le`. -/
def insertLe (le : Machine → Machine → Bool) (m : Machine) : List Machine → List Machine
  | [] => [m]
  | x :: xs => if le m x then m :: x :: xs else x :: insertLe le m xs

/-- Insertion sort by `le`. -/
def sortLe (le : Machine → Machine → Bool) : List Machine → List Machine
  | [] => []
  | x :: xs => insertLe le x (sortLe le xs)

/-- Modelled from the spec (§4.4): sorting by `sortField` / `sortOrder`; an
empty sort field leaves store order. -/
def sortMachines (sortField sortOrder : String) (ms : List Machine) : List Machine :=
  if sortField == "" then ms
  else if sortOrder == "descend" then
    sortLe (fun a b => decide (machineField b sortField ≤ machineField a sortField)) ms
  else
    sortLe (fun a b => decide (machineField a sortField ≤ machineField b sortField)) ms

theorem length_insertLe (le : Machine → Machine → Bool) (m : Machine) (l : List Machine) :
    (insertLe le m l).length = l.length + 1 := by
  induction l with
  | nil => rfl
  | cons x xs ih =>
    unfold insertLe
    by_cases h : le m x = true
    · simp [h]
    · simp [h, ih]

theorem length_sortLe (le : Machine → Machine → Bool) (l : List Machine) :
    (sortLe le l).length = l.length := by
  induction l with
  | nil => rfl
  | cons x xs ih => simp [sortLe, length_insertLe, ih]

theorem length_sortMachines (sortField sortOrder : String) (ms : List Machine) :
    (sortMachines sortField sortOrder ms).length = ms.length := by
  unfold sortMachines
  by_cases h1 : (sortField == "") = true
  · simp [h1]
  · by_cases h2 : (sortOrder == "descend") = true <;> simp [h1, h2, length_sortLe]

/-- The records of `db` that match the owner scope plus the field filter. -/
def pagedScope (db : List Machine) (owner field value : String) : List Machine :=
  db.filter (fun m => matchesOwner owner m && matchesFilter field value m)

/-- Modelled from the spec (§6): a concrete store over an explicit database
`db`, implementing `ListMachines`, `CountMachines`, `ListMachinesPage` (filter,
sort, then offset/limit slice) and `GetMachineById` (not-found error). -/
def specStore (db : List Machine) : StoreOps where
  getMachines := fun owner => .ok (db.filter (matchesOwner owner))
  getMachineCount := fun owner field value => .ok (pagedScope db owner field value).length
  getPaginationMachines := fun owner offset limit field value sortField sortOrder =>
    .ok (((sortMachines sortField sortOrder (pagedScope db owner field value)).drop offset.toNat).take limit.toNat)
  getMachine := fun id =>
    match (db.filter (fun m => m.owner ++ "/" ++ m.name == id)).head? with
    | some m => .ok m
    | none => .error ("machine not found: " ++ id)

/-- The owners for which a cloud sync was invoked during a run, in order. -/
def syncTargets (t : List Event) : List String :=
  t.filterMap fun e =>
    match e with
    | .sync o => some o
    | _ => none

theorem syncTargets_append (s t : List Event) :
    syncTargets (s ++ t) = syncTargets s ++ syncTargets t := by
  simp [syncTargets, List.filterMap_append]

theorem findNonDefault_fst (l : List Machine) :
    (findNonDefault l).1 = l.any (fun m => !m.IsDefault) := by
  induction l with
  | nil => rfl
  | cons m rest ih =>
    unfold findNonDefault
    by_cases h : (!m.IsDefault) = true
    · simp [h]
    · simp only [h, if_neg, Bool.false_eq_true, not_false_iff, List.any_cons]
      simp only [Bool.not_eq_true] at h
      simp [h, ih]

theorem syncTargets_findNonDefault (l : List Machine) :
    syncTargets (findNonDefault l).2 = [] := by
  induction l with
  | nil => rfl
  | cons m rest ih =>
    unfold findNonDefault
    by_cases h : (!m.IsDefault) = true
    · simp [h, syncTargets]
    · simp only [h, if_neg, Bool.false_eq_true, not_false_iff]
      simpa [syncTargets] using ih

theorem syncTargets_getMachinesRest (env : Env) (store : StoreOps)
    (owner limitS pageS field value sortField sortOrder : String) :
    syncTargets (getMachinesRest env store owner limitS pageS field value sortField sortOrder).2 = [] := by
  unfold getMachinesRest
  repeat' split
  all_goals simp [syncTargets]

/-- Expected response of the unpaginated read: propagate a fetch error, else
mask the list (propagating a mask error). -/
def maskListResp (env : Env) (r : Except String (List Machine)) : Response :=
  match r with
  | .error e => .err e
  | .ok ms =>
    match env.getMaskedMachines ms with
    | .error e => .err e
    | .ok mms => .ok mms

/-- Expected response of masking one machine. -/
def maskOneResp (env : Env) (m : Machine) : Response :=
  match env.getMaskedMachine m with
  | .error e => .err e
  | .ok mm => .okOne mm

/-- Expected response of the post-sync re-fetch in GetMachine. -/
def refetchMaskResp (env : Env) (id : String) : Response :=
  match env.store1.getMachine id with
  | .error e => .err e
  | .ok m2 => maskOneResp env m2

theorem GetMachines_run_fetchErr (env : Env)
    (owner limitS pageS field value sortField sortOrder e : String)
    (h : env.store0.getMachines owner = .error e) :
    GetMachines env owner limitS pageS field value sortField sortOrder
      = (.err e, [Event.fetchAll owner]) := by
  unfold GetMachines
  rw [h]

theorem GetMachines_run_noSync (env : Env)
    (owner limitS pageS field value sortField sortOrder : String) (ms : List Machine)
    (h0 : env.store0.getMachines owner = .ok ms)
    (hAny : ms.any (fun m => !m.IsDefault) = false) :
    GetMachines env owner limitS pageS field value sortField sortOrder
      = ((getMachinesRest env env.store0 owner limitS pageS field value sortField sortOrder).1,
         (Event.fetchAll owner :: (findNonDefault ms).2) ++
           (getMachinesRest env env.store0 owner limitS pageS field value sortField sortOrder).2) := by
  unfold GetMachines
  rw [h0]
  have hf : (findNonDefault ms).1 = false := by rw [findNonDefault_fst]; exact hAny
  simp [hf]

theorem GetMachines_run_syncErr (env : Env)
    (owner limitS pageS field value sortField sortOrder e : String) (ms : List Machine)
    (h0 : env.store0.getMachines owner = .ok ms)
    (hAny : ms.any (fun m => !m.IsDefault) = true)
    (hs : env.syncMachinesCloud owner = .error e) :
    GetMachines env owner limitS pageS field value sortField sortOrder
      = (.err e, (Event.fetchAll owner :: (findNonDefault ms).2) ++ [Event.sync owner]) := by
  unfold GetMachines
  rw [h0]
  have hf : (findNonDefault ms).1 = true := by rw [findNonDefault_fst]; exact hAny
  simp [hf, hs]

theorem GetMachines_run_syncOk (env : Env)
    (owner limitS pageS field value sortField sortOrder : String) (ms : List Machine) (n : Nat)
    (h0 : env.store0.getMachines owner = .ok ms)
    (hAny : ms.any (fun m => !m.IsDefault) = true)
    (hs : env.syncMachinesCloud owner = .ok n) :
    GetMachines env owner limitS pageS field value sortField sortOrder
      = ((getMachinesRest env env.store1 owner limitS pageS field value sortField sortOrder).1,
         (Event.fetchAll owner :: (findNonDefault ms).2) ++ [Event.sync owner] ++
           (getMachinesRest env env.store1 owner limitS pageS field value sortField sortOrder).2) := by
  unfold GetMachines
  rw [h0]
  have hf : (findNonDefault ms).1 = true := by rw [findNonDefault_fst]; exact hAny
  simp [hf, hs]

theorem getMachinesRest_unpag_fst (env : Env) (store : StoreOps)
    (owner limitS pageS field value sortField sortOrder : String)
    (h : (limitS == "" || pageS == "") = true) :
    (getMachinesRest env store owner limitS pageS field value sortField sortOrder).1
      = maskListResp env (store.getMachines owner) := by
  unfold getMachinesRest maskListResp
  rw [if_pos h]
  cases hs : store.getMachines owner with
  | error e => rfl
  | ok ms => cases hm : env.getMaskedMachines ms <;> simp [hm]

theorem getMachinesRest_unpag_params (env : Env) (store : StoreOps)
    (owner limitS pageS field value sortField sortOrder f2 v2 sf2 so2 : String)
    (h : (limitS == "" || pageS == "") = true) :
    getMachinesRest env store owner limitS pageS field value sortField sortOrder
      = getMachinesRest env store owner limitS pageS f2 v2 sf2 so2 := by
  unfold getMachinesRest
  rw [if_pos h, if_pos h]

theorem getMachinesRest_pag_limitErr (env : Env) (store : StoreOps)
    (owner limitS pageS field value sortField sortOrder e : String)
    (hcond : (limitS == "" || pageS == "") = false)
    (he : parseIntS limitS = .error e) :
    getMachinesRest env store owner limitS pageS field value sortField sortOrder
      = (.err e, []) := by
  unfold getMachinesRest
  rw [if_neg (by simp [hcond]), he]

theorem getMachinesRest_pag_pageErr (env : Env) (store : StoreOps)
    (owner limitS pageS field value sortField sortOrder e : String) (k : Int) (cnt : Nat)
    (hcond : (limitS == "" || pageS == "") = false)
    (hk : parseIntS limitS = .ok k)
    (hc : store.getMachineCount owner field value = .ok cnt)
    (hpe : parseIntS pageS = .error e) :
    getMachinesRest env store owner limitS pageS field value sortField sortOrder
      = (.err e, [Event.countReq owner field value]) := by
  unfold getMachinesRest
  rw [if_neg (by simp [hcond]), hk, hc, hpe]

theorem getMachinesRest_pag_ok (env : Env) (store : StoreOps)
    (owner limitS pageS field value sortField sortOrder : String) (k p : Int) (cnt : Nat)
    (ms mms : List Machine)
    (hcond : (limitS == "" || pageS == "") = false)
    (hk : parseIntS limitS = .ok k)
    (hc : store.getMachineCount owner field value = .ok cnt)
    (hp : parseIntS pageS = .ok p)
    (hfetch : store.getPaginationMachines owner ((p - 1) * k) k field value sortField sortOrder = .ok ms)
    (hm : env.getMaskedMachines ms = .ok mms) :
    getMachinesRest env store owner limitS pageS field value sortField sortOrder
      = (.okPaged mms cnt,
         [Event.countReq owner field value,
          Event.fetchPage owner ((p - 1) * k) k field value sortField sortOrder,
          Event.maskMany]) := by
  unfold getMachinesRest
  rw [if_neg (by simp [hcond])]
  simp only [hk, hc, hp, hfetch, hm]

theorem GetMachine_run_default (env : Env) (id : String) (m : Machine)
    (h0 : env.store0.getMachine id = .ok m)
    (hd : m.IsDefault = true) :
    GetMachine env id
      = (maskOneResp env m, [Event.fetchOne id, Event.classify, Event.maskOne]) := by
  unfold GetMachine maskOneResp
  rw [h0]
  simp only [hd, if_true]
  cases hm : env.getMaskedMachine m <;> rfl

theorem GetMachine_run_syncErr (env : Env) (id e : String) (m : Machine)
    (h0 : env.store0.getMachine id = .ok m)
    (hd : m.IsDefault = false)
    (hs : env.syncMachinesCloud (ownerOfId id) = .error e) :
    GetMachine env id
      = (.err e, [Event.fetchOne id, Event.classify, Event.sync (ownerOfId id)]) := by
  unfold GetMachine
  rw [h0]
  simp [hd, hs]

theorem GetMachine_run_syncOk (env : Env) (id : String) (m : Machine) (n : Nat)
    (h0 : env.store0.getMachine id = .ok m)
    (hd : m.IsDefault = false)
    (hs : env.syncMachinesCloud (ownerOfId id) = .ok n) :
    (GetMachine env id).1 = refetchMaskResp env id ∧
    syncTargets (GetMachine env id).2 = [ownerOfId id] := by
  unfold GetMachine refetchMaskResp maskOneResp
  rw [h0]
  simp only [hd, Bool.false_eq_true, if_false, hs]
  cases hr : env.store1.getMachine id with
  | error e => simp [syncTargets]
  | ok m2 => cases hm : env.getMaskedMachine m2 <;> simp [hm, syncTargets]

theorem syncTargets_cons_nonsync (o : String) (t : List Event) :
    syncTargets (Event.fetchAll o :: t) = syncTargets t := by
  simp [syncTargets]

/-- A concrete Disclosure Filter instance: blank out the IP fields. -/
def maskW (m : Machine) : Except String Machine :=
  .ok { m with publicIp := "***", privateIp := "***" }

/-- A concrete environment: the store holds one default and one real machine
of owner "alice"; sync succeeds and leaves the store unchanged. -/
def envW : Env where
  store0 := specStore [mDef, mReal]
  store1 := specStore [mDef, mReal]
  syncMachinesCloud := fun _ => .ok 1
  getMaskedMachine := maskW
  getMaskedMachines := fun l => l.mapM maskW

/-- The concrete environment with a failing cloud sync. -/
def envSyncErr : Env :=
  { envW with syncMachinesCloud := fun _ => .error "cloud down" }

/-- Claim C2: on a list request, cloud sync is invoked exactly once for the
owner scope iff some fetched machine is non-default; if every fetched machine
is default (in particular if the fetched set is empty) no sync call is
made. -/
theorem GetMachines_sync_gate (env : Env)
    (owner limitS pageS field value sortField sortOrder : String) (ms : List Machine)
    (h0 : env.store0.getMachines owner = .ok ms) :
    ((∃ m ∈ ms, m.IsDefault = false) →
       syncTargets (GetMachines env owner limitS pageS field value sortField sortOrder).2
         = [owner]) ∧
    ((∀ m ∈ ms, m.IsDefault = true) →
       syncTargets (GetMachines env owner limitS pageS field value sortField sortOrder).2
         = []) := by
  constructor
  · intro hex
    have hAny : ms.any (fun m => !m.IsDefault) = true := by
      rw [List.any_eq_true]
      obtain ⟨m, hm, hd⟩ := hex
      exact ⟨m, hm, by simp [hd]⟩
    cases hs : env.syncMachinesCloud owner with
    | error e =>
      rw [GetMachines_run_syncErr env owner limitS pageS field value sortField sortOrder e ms h0 hAny hs]
      show syncTargets ((Event.fetchAll owner :: (findNonDefault ms).2) ++ [Event.sync owner]) = [owner]
      rw [syncTargets_append, syncTargets_cons_nonsync, syncTargets_findNonDefault]
      rfl
    | ok n =>
      rw [GetMachines_run_syncOk env owner limitS pageS field value sortField sortOrder ms n h0 hAny hs]
      show syncTargets ((Event.fetchAll owner :: (findNonDefault ms).2) ++ [Event.sync owner] ++
        (getMachinesRest env env.store1 owner limitS pageS field value sortField sortOrder).2) = [owner]
      rw [syncTargets_append, syncTargets_append, syncTargets_cons_nonsync,
          syncTargets_findNonDefault, syncTargets_getMachinesRest]
      rfl
  · intro hall
    have hAny : ms.any (fun m => !m.IsDefault) = false := by
      by_cases hA : ms.any (fun m => !m.IsDefault) = true
      · exfalso
        rw [List.any_eq_true] at hA
        obtain ⟨m, hm, hd⟩ := hA
        rw [hall m hm] at hd
        simp at hd
      · exact Bool.eq_false_iff.mpr hA
    rw [GetMachines_run_noSync env owner limitS pageS field value sortField sortOrder ms h0 hAny]
    show syncTargets ((Event.fetchAll owner :: (findNonDefault ms).2) ++
      (getMachinesRest env env.store0 owner limitS pageS field value sortField sortOrder).2) = []
    rw [syncTargets_append, syncTargets_cons_nonsync, syncTargets_findNonDefault,
        syncTargets_getMachinesRest]
    rfl

/-- Witness for C2: in the concrete environment, owner "alice" holds a
non-default machine, so the unpaginated list request syncs "alice" exactly
once. -/
theorem GetMachines_sync_gate_witness :
    syncTargets (GetMachines envW "alice" "" "" "" "" "" "").2 = ["alice"] :=
  (GetMachines_sync_gate envW "alice" "" "" "" "" "" "" [mDef, mReal] rfl).1
    ⟨mReal, by simp, by decide⟩

/-- Claim C3: a get-one request on a default record masks and returns it with
zero sync calls; on a non-default record it syncs the record's owner exactly
once and, when the sync succeeds, re-fetches, masks, and returns. -/
theorem GetMachine_sync_policy (env : Env) (id : String) (m : Machine)
    (h0 : env.store0.getMachine id = .ok m) :
    (m.IsDefault = true →
       GetMachine env id
         = (maskOneResp env m, [Event.fetchOne id, Event.classify, Event.maskOne])) ∧
    (m.IsDefault = false →
       syncTargets (GetMachine env id).2 = [ownerOfId id] ∧
       ∀ n, env.syncMachinesCloud (ownerOfId id) = .ok n →
         (GetMachine env id).1 = refetchMaskResp env id) := by
  constructor
  · intro hd
    exact GetMachine_run_default env id m h0 hd
  · intro hd
    constructor
    · cases hs : env.syncMachinesCloud (ownerOfId id) with
      | error e =>
        rw [GetMachine_run_syncErr env id e m h0 hd hs]
        rfl
      | ok n => exact (GetMachine_run_syncOk env id m n h0 hd hs).2
    · intro n hs
      exact (GetMachine_run_syncOk env id m n h0 hd hs).1

/-- Witness for C3: getting the default machine "alice/machine_1" returns the
masked record with a sync-free trace. -/
theorem GetMachine_sync_policy_witness :
    GetMachine envW "alice/machine_1"
      = (maskOneResp envW mDef,
         [Event.fetchOne "alice/machine_1", Event.classify, Event.maskOne]) :=
  (GetMachine_sync_policy envW "alice/machine_1" mDef rfl).1 (by decide)

/-- Claim C4: when the invoked cloud sync fails, both read handlers return
that error as the whole response — no machine data, stale or partial, is
returned. -/
theorem sync_error_aborts (env : Env)
    (owner limitS pageS field value sortField sortOrder id e : String) :
    (∀ ms, env.store0.getMachines owner = .ok ms →
       ms.any (fun m => !m.IsDefault) = true →
       env.syncMachinesCloud owner = .error e →
       GetMachines env owner limitS pageS field value sortField sortOrder
         = (.err e, (Event.fetchAll owner :: (findNonDefault ms).2) ++ [Event.sync owner])) ∧
    (∀ m, env.store0.getMachine id = .ok m →
       m.IsDefault = false →
       env.syncMachinesCloud (ownerOfId id) = .error e →
       GetMachine env id
         = (.err e, [Event.fetchOne id, Event.classify, Event.sync (ownerOfId id)])) :=
  ⟨fun ms h0 hA hs =>
     GetMachines_run_syncErr env owner limitS pageS field value sortField sortOrder e ms h0 hA hs,
   fun m h0 hd hs => GetMachine_run_syncErr env id e m h0 hd hs⟩

/-- Witness for C4: with the cloud down, both the list request and the
get-one request on the real machine return the sync error. -/
theorem sync_error_aborts_witness :
    (GetMachines envSyncErr "alice" "" "" "" "" "" "").1 = .err "cloud down" ∧
    (GetMachine envSyncErr "alice/web1").1 = .err "cloud down" := by
  constructor
  · rw [(sync_error_aborts envSyncErr "alice" "" "" "" "" "" "" "alice/web1" "cloud down").1
        [mDef, mReal] rfl (by decide) rfl]
  · rw [(sync_error_aborts envSyncErr "alice" "" "" "" "" "" "" "alice/web1" "cloud down").2
        mReal rfl (by decide) rfl]

/-- Claim C5: a list request without pagination answers with exactly the full
masked owner set re-fetched from the store state that results from the sync
phase: the pre-sync store when nothing triggered a sync, the post-sync store
when a sync ran — never the set fetched before the sync. -/
theorem GetMachines_unpaginated_full (env : Env)
    (owner limitS pageS field value sortField sortOrder : String) (ms : List Machine)
    (hnp : limitS = "" ∨ pageS = "")
    (h0 : env.store0.getMachines owner = .ok ms) :
    ((∀ m ∈ ms, m.IsDefault = true) →
       (GetMachines env owner limitS pageS field value sortField sortOrder).1
         = maskListResp env (env.store0.getMachines owner)) ∧
    ((∃ m ∈ ms, m.IsDefault = false) →
       ∀ n, env.syncMachinesCloud owner = .ok n →
         (GetMachines env owner limitS pageS field value sortField sortOrder).1
           = maskListResp env (env.store1.getMachines owner)) := by
  have hcond : (limitS == "" || pageS == "") = true := by
    cases hnp with
    | inl h => simp [h]
    | inr h => simp [h]
  constructor
  · intro hall
    have hAny : ms.any (fun m => !m.IsDefault) = false := by
      by_cases hA : ms.any (fun m => !m.IsDefault) = true
      · exfalso
        rw [List.any_eq_true] at hA
        obtain ⟨m, hm, hd⟩ := hA
        rw [hall m hm] at hd
        simp at hd
      · exact Bool.eq_false_iff.mpr hA
    rw [GetMachines_run_noSync env owner limitS pageS field value sortField sortOrder ms h0 hAny]
    exact getMachinesRest_unpag_fst env env.store0 owner limitS pageS field value sortField sortOrder hcond
  · intro hex n hs
    have hAny : ms.any (fun m => !m.IsDefault) = true := by
      rw [List.any_eq_true]
      obtain ⟨m, hm, hd⟩ := hex
      exact ⟨m, hm, by simp [hd]⟩
    rw [GetMachines_run_syncOk env owner limitS pageS field value sortField sortOrder ms n h0 hAny hs]
    exact getMachinesRest_unpag_fst env env.store1 owner limitS pageS field value sortField sortOrder hcond

/-- Witness for C5: the unpaginated list for "alice" (which has a non-default
machine and a succeeding sync) is the masked post-sync owner set. -/
theorem GetMachines_unpaginated_full_witness :
    (GetMachines envW "alice" "" "" "" "" "" "").1
      = maskListResp envW (envW.store1.getMachines "alice") :=
  (GetMachines_unpaginated_full envW "alice" "" "" "" "" "" "" [mDef, mReal]
      (Or.inl rfl) rfl).2 ⟨mReal, by simp, by decide⟩ 1 rfl

/-- The store state the post-sync reads go to, as a function of whether the
scan found a non-default machine. -/
def storeAfter (env : Env) (triggered : Bool) : StoreOps :=
  if triggered then env.store1 else env.store0

/-- Claim C7: on the paginated path (both parameters non-empty), a
non-numeric pageSize makes the request fail with the parse error, and a
non-numeric page parameter likewise fails (after the count fetch) instead of
silently defaulting. -/
theorem GetMachines_parse_error (env : Env)
    (owner limitS pageS field value sortField sortOrder e : String) (ms : List Machine)
    (hL : limitS ≠ "") (hP : pageS ≠ "")
    (h0 : env.store0.getMachines owner = .ok ms)
    (hsy : ∀ o, ∃ n, env.syncMachinesCloud o = .ok n) :
    (parseIntS limitS = .error e →
       (GetMachines env owner limitS pageS field value sortField sortOrder).1 = .err e) ∧
    (∀ k cnt, parseIntS limitS = .ok k →
       (storeAfter env (ms.any fun m => !m.IsDefault)).getMachineCount owner field value = .ok cnt →
       parseIntS pageS = .error e →
       (GetMachines env owner limitS pageS field value sortField sortOrder).1 = .err e) := by
  have hcond : (limitS == "" || pageS == "") = false := by
    rw [Bool.or_eq_false_iff]
    exact ⟨beq_eq_false_iff_ne.mpr hL, beq_eq_false_iff_ne.mpr hP⟩
  by_cases hAny : ms.any (fun m => !m.IsDefault) = true
  · obtain ⟨n, hs⟩ := hsy owner
    constructor
    · intro he
      rw [GetMachines_run_syncOk env owner limitS pageS field value sortField sortOrder ms n h0 hAny hs,
          getMachinesRest_pag_limitErr env env.store1 owner limitS pageS field value sortField sortOrder e hcond he]
    · intro k cnt hk hc hpe
      rw [hAny] at hc
      simp only [storeAfter, if_true] at hc
      rw [GetMachines_run_syncOk env owner limitS pageS field value sortField sortOrder ms n h0 hAny hs,
          getMachinesRest_pag_pageErr env env.store1 owner limitS pageS field value sortField sortOrder e k cnt hcond hk hc hpe]
  · have hA' : ms.any (fun m => !m.IsDefault) = false := Bool.eq_false_iff.mpr hAny
    constructor
    · intro he
      rw [GetMachines_run_noSync env owner limitS pageS field value sortField sortOrder ms h0 hA',
          getMachinesRest_pag_limitErr env env.store0 owner limitS pageS field value sortField sortOrder e hcond he]
    · intro k cnt hk hc hpe
      rw [hA'] at hc
      simp only [storeAfter, Bool.false_eq_true, if_false] at hc
      rw [GetMachines_run_noSync env owner limitS pageS field value sortField sortOrder ms h0 hA',
          getMachinesRest_pag_pageErr env env.store0 owner limitS pageS field value sortField sortOrder e k cnt hcond hk hc hpe]

/-- Witness for C7: pageSize "abc" fails the paginated request with the
parse error. -/
theorem GetMachines_parse_error_witness :
    (GetMachines envW "alice" "abc" "1" "" "" "" "").1 = .err "ParseInt error: abc" :=
  (GetMachines_parse_error envW "alice" "abc" "1" "" "" "" "" "ParseInt error: abc"
      [mDef, mReal] (by decide) (by decide) rfl (fun o => ⟨1, rfl⟩)).1 rfl

/-- Claim C9: on the unpaginated path the filter and sort query parameters
have no effect: the whole response (data and trace) is identical whatever
field/value/sortField/sortOrder are supplied. -/
theorem GetMachines_unpaginated_param_irrelevance (env : Env)
    (owner limitS pageS field value sortField sortOrder f2 v2 sf2 so2 : String)
    (hnp : limitS = "" ∨ pageS = "") :
    GetMachines env owner limitS pageS field value sortField sortOrder
      = GetMachines env owner limitS pageS f2 v2 sf2 so2 := by
  have hcond : (limitS == "" || pageS == "") = true := by
    cases hnp with
    | inl h => simp [h]
    | inr h => simp [h]
  unfold GetMachines
  cases h0 : env.store0.getMachines owner with
  | error e => rfl
  | ok ms =>
    rw [getMachinesRest_unpag_params env env.store0 owner limitS pageS field value sortField sortOrder f2 v2 sf2 so2 hcond,
        getMachinesRest_unpag_params env env.store1 owner limitS pageS field value sortField sortOrder f2 v2 sf2 so2 hcond]

/-- Witness for C9 at a concrete environment and parameters. -/
theorem GetMachines_unpaginated_param_irrelevance_witness :
    GetMachines envW "alice" "" "" "name" "web1" "name" "descend"
      = GetMachines envW "alice" "" "" "" "" "" "" :=
  GetMachines_unpaginated_param_irrelevance envW "alice" "" "" "name" "web1" "name" "descend"
    "" "" "" "" (Or.inl rfl)

/-- Claim C10: if the initial owner-wide fetch fails, the handler stops with
that error having performed no sync, mask, or further store read; and the
sync decision never depends on the filter/sort parameters, because it is
computed from the unfiltered owner-wide fetch. -/
theorem GetMachines_fetch_error_scope (env : Env)
    (owner limitS pageS field value sortField sortOrder f2 v2 sf2 so2 e : String) :
    (env.store0.getMachines owner = .error e →
       GetMachines env owner limitS pageS field value sortField sortOrder
         = (.err e, [Event.fetchAll owner])) ∧
    syncTargets (GetMachines env owner limitS pageS field value sortField sortOrder).2
      = syncTargets (GetMachines env owner limitS pageS f2 v2 sf2 so2).2 := by
  constructor
  · intro h
    exact GetMachines_run_fetchErr env owner limitS pageS field value sortField sortOrder e h
  · cases h0 : env.store0.getMachines owner with
    | error e2 =>
      rw [GetMachines_run_fetchErr env owner limitS pageS field value sortField sortOrder e2 h0,
          GetMachines_run_fetchErr env owner limitS pageS f2 v2 sf2 so2 e2 h0]
    | ok ms =>
      by_cases hAny : ms.any (fun m => !m.IsDefault) = true
      · cases hs : env.syncMachinesCloud owner with
        | error e2 =>
          rw [GetMachines_run_syncErr env owner limitS pageS field value sortField sortOrder e2 ms h0 hAny hs,
              GetMachines_run_syncErr env owner limitS pageS f2 v2 sf2 so2 e2 ms h0 hAny hs]
        | ok n =>
          rw [GetMachines_run_syncOk env owner limitS pageS field value sortField sortOrder ms n h0 hAny hs,
              GetMachines_run_syncOk env owner limitS pageS f2 v2 sf2 so2 ms n h0 hAny hs]
          simp only [syncTargets_append, syncTargets_cons_nonsync, syncTargets_findNonDefault,
            syncTargets_getMachinesRest]
      · have hA' : ms.any (fun m => !m.IsDefault) = false := Bool.eq_false_iff.mpr hAny
        rw [GetMachines_run_noSync env owner limitS pageS field value sortField sortOrder ms h0 hA',
            GetMachines_run_noSync env owner limitS pageS f2 v2 sf2 so2 ms h0 hA']
        simp only [syncTargets_append, syncTargets_cons_nonsync, syncTargets_findNonDefault,
          syncTargets_getMachinesRest]

/-- The concrete environment whose owner-wide fetch fails. -/
def envStoreErr : Env :=
  { envW with store0 := { specStore [mDef, mReal] with getMachines := fun _ => .error "db down" } }

/-- Witness for C10: with the store down, the list request returns the store
error after only the initial fetch. -/
theorem GetMachines_fetch_error_scope_witness :
    GetMachines envStoreErr "alice" "" "" "" "" "" ""
      = (.err "db down", [Event.fetchAll "alice"]) :=
  (GetMachines_fetch_error_scope envStoreErr "alice" "" "" "" "" "" "" "" "" "" "" "db down").1 rfl

/-- Claim C8: each mutation handler returns the decode error with no store
call when the body fails to decode, and on a decoded body performs exactly
its one store write — never a classification, masking, or sync. -/
theorem mutation_gateway_spec (ws : WriteStore) (id e : String) (m : Machine)
    (body : Except String Machine) :
    AddMachine ws (.error e) = (.err e, []) ∧
    UpdateMachine ws id (.error e) = (.err e, []) ∧
    DeleteMachine ws (.error e) = (.err e, []) ∧
    (AddMachine ws (.ok m)).2 = [Event.storeAdd m] ∧
    (UpdateMachine ws id (.ok m)).2 = [Event.storeUpdate id m] ∧
    (DeleteMachine ws (.ok m)).2 = [Event.storeDelete m] ∧
    (∀ ev ∈ (AddMachine ws body).2 ++ (UpdateMachine ws id body).2 ++ (DeleteMachine ws body).2,
       ev ≠ Event.classify ∧ ev ≠ Event.maskOne ∧ ev ≠ Event.maskMany ∧ ∀ o, ev ≠ Event.sync o) := by
  refine ⟨rfl, rfl, rfl, rfl, rfl, rfl, ?_⟩
  cases body with
  | error e2 =>
    intro ev hev
    simp [AddMachine, UpdateMachine, DeleteMachine] at hev
  | ok m2 =>
    intro ev hev
    simp [AddMachine, UpdateMachine, DeleteMachine] at hev
    rcases hev with h | h | h <;> subst h <;>
      exact ⟨by simp, by simp, by simp, fun o => by simp⟩

/-- A concrete write store that accepts everything. -/
def wsW : WriteStore where
  addMachine := fun _ => .ok true
  updateMachine := fun _ _ => .ok true
  deleteMachine := fun _ => .ok true

/-- Witness for C8 at a concrete write store: a decode failure is returned
verbatim with an empty trace, and a decoded add performs only the store
add. -/
theorem mutation_gateway_spec_witness :
    AddMachine wsW (.error "bad json") = (.err "bad json", []) ∧
    (AddMachine wsW (.ok mDef)).2 = [Event.storeAdd mDef] :=
  ⟨(mutation_gateway_spec wsW "alice/machine_1" "bad json" mDef (.ok mDef)).1,
   (mutation_gateway_spec wsW "alice/machine_1" "bad json" mDef (.ok mDef)).2.2.2.1⟩

/-- The database the post-sync reads see: `db1` when the owner-wide scan of
`db0` finds a non-default machine (a sync runs), else `db0`. -/
def dbAfter (db0 db1 : List Machine) (owner : String) : List Machine :=
  if (db0.filter (matchesOwner owner)).any (fun m => !m.IsDefault) then db1 else db0

/-- Claim C6: with pagination over the concrete store, the response total is
N, the number of records matching owner+field+value (in the post-sync
database), and the returned data is exactly the mask of the slice fetched
with the paginator offset, limit k, filter, and sort — its length being
min(k, N - offset). -/
theorem GetMachines_paginated_spec (db0 db1 : List Machine)
    (sy : String → Except String Nat) (gm1 : Machine → Except String Machine)
    (gms : List Machine → Except String (List Machine))
    (owner limitS pageS field value sortField sortOrder : String) (k p : Int)
    (hL : limitS ≠ "") (hP : pageS ≠ "")
    (hk : parseIntS limitS = .ok k) (hp : parseIntS pageS = .ok p)
    (hsy : ∀ o, ∃ n, sy o = .ok n)
    (hgms : ∀ l, ∃ l2, gms l = .ok l2 ∧ l2.length = l.length) :
    ∃ masked,
      (GetMachines ⟨specStore db0, specStore db1, sy, gm1, gms⟩
          owner limitS pageS field value sortField sortOrder).1
        = .okPaged masked (pagedScope (dbAfter db0 db1 owner) owner field value).length ∧
      gms (((sortMachines sortField sortOrder (pagedScope (dbAfter db0 db1 owner) owner field value)).drop
            ((p - 1) * k).toNat).take k.toNat)
        = .ok masked ∧
      masked.length
        = min k.toNat
            ((pagedScope (dbAfter db0 db1 owner) owner field value).length - ((p - 1) * k).toNat) := by
  have hcond : (limitS == "" || pageS == "") = false := by
    rw [Bool.or_eq_false_iff]
    exact ⟨beq_eq_false_iff_ne.mpr hL, beq_eq_false_iff_ne.mpr hP⟩
  by_cases hAny : (db0.filter (matchesOwner owner)).any (fun m => !m.IsDefault) = true
  · obtain ⟨n, hs⟩ := hsy owner
    have hdb : dbAfter db0 db1 owner = db1 := by
      unfold dbAfter
      rw [if_pos hAny]
    obtain ⟨masked, hgm, hlen⟩ := hgms
      (((sortMachines sortField sortOrder (pagedScope db1 owner field value)).drop
          ((p - 1) * k).toNat).take k.toNat)
    refine ⟨masked, ?_, ?_, ?_⟩
    · rw [GetMachines_run_syncOk ⟨specStore db0, specStore db1, sy, gm1, gms⟩
            owner limitS pageS field value sortField sortOrder
            (db0.filter (matchesOwner owner)) n rfl hAny hs,
          getMachinesRest_pag_ok ⟨specStore db0, specStore db1, sy, gm1, gms⟩
            (Env.store1 ⟨specStore db0, specStore db1, sy, gm1, gms⟩)
            owner limitS pageS field value sortField sortOrder k p
            (pagedScope db1 owner field value).length _ masked hcond hk rfl hp rfl hgm,
          hdb]
    · rw [hdb]
      exact hgm
    · rw [hdb, hlen, List.length_take, List.length_drop, length_sortMachines]
  · have hA' : (db0.filter (matchesOwner owner)).any (fun m => !m.IsDefault) = false :=
      Bool.eq_false_iff.mpr hAny
    have hdb : dbAfter db0 db1 owner = db0 := by
      unfold dbAfter
      rw [if_neg (by simp [hA'])]
    obtain ⟨masked, hgm, hlen⟩ := hgms
      (((sortMachines sortField sortOrder (pagedScope db0 owner field value)).drop
          ((p - 1) * k).toNat).take k.toNat)
    refine ⟨masked, ?_, ?_, ?_⟩
    · rw [GetMachines_run_noSync ⟨specStore db0, specStore db1, sy, gm1, gms⟩
            owner limitS pageS field value sortField sortOrder
            (db0.filter (matchesOwner owner)) rfl hA',
          getMachinesRest_pag_ok ⟨specStore db0, specStore db1, sy, gm1, gms⟩
            (Env.store0 ⟨specStore db0, specStore db1, sy, gm1, gms⟩)
            owner limitS pageS field value sortField sortOrder k p
            (pagedScope db0 owner field value).length _ masked hcond hk rfl hp rfl hgm,
          hdb]
    · rw [hdb]
      exact hgm
    · rw [hdb, hlen, List.length_take, List.length_drop, length_sortMachines]

/-- Masking one machine as a pure transformation: blank the IP fields. -/
def maskMachineW (m : Machine) : Machine :=
  { m with publicIp := "***", privateIp := "***" }

/-- The plural Disclosure Filter instance: map the pure mask over the list. -/
def maskListW (l : List Machine) : Except String (List Machine) :=
  .ok (l.map maskMachineW)

/-- Witness for C6: owner "alice" with 2 matching records, pageSize 1,
page 2: the total is 2 and the returned slice has length min(1, 2-1) = 1. -/
theorem GetMachines_paginated_spec_witness :
    ∃ masked,
      (GetMachines ⟨specStore [mDef, mReal], specStore [mDef, mReal], fun _ => .ok 1, maskW, maskListW⟩
          "alice" "1" "2" "" "" "" "").1
        = .okPaged masked 2 ∧ masked.length = 1 := by
  obtain ⟨masked, h1, h2, h3⟩ :=
    GetMachines_paginated_spec [mDef, mReal] [mDef, mReal] (fun _ => .ok 1) maskW maskListW
      "alice" "1" "2" "" "" "" "" 1 2 (by decide) (by decide) rfl rfl
      (fun o => ⟨1, rfl⟩) (fun l => ⟨l.map maskMachineW, rfl, by simp [maskListW]⟩)
  refine ⟨masked, ?_, ?_⟩
  · have hN : (pagedScope (dbAfter [mDef, mReal] [mDef, mReal] "alice") "alice" "" "").length = 2 := by
      decide
    rw [hN] at h1
    exact h1
  · have hmin :
        min (1 : Int).toNat
          ((pagedScope (dbAfter [mDef, mReal] [mDef, mReal] "alice") "alice" "" "").length -
            (((2 : Int) - 1) * 1).toNat) = 1 := by
      decide
    rw [hmin] at h3
    exact h3
